import Mathlib

/-!
# gerr: canonical RPC status codes as Go errors

A shallow embedding of `src/gerr/errors.go`.

The repository is a thin layer over three libraries that are not part of it:
`google.golang.org/grpc/codes`, `google.golang.org/grpc/status` and the Go standard
library (`errors`, `fmt`, `net/http`).  The parts of those libraries that the
package calls are modelled in the first sections, each with a comment saying which
library function it stands for.  The definitions of the package itself (`Error`, its
methods, `toHttp`, the sixteen package-level sentinels) follow the source line by line.

Conventions
* `codes.Code` is a `uint32`; it is a `Nat`, and the conversions to and from the
  `int32` field of the status message are explicit.
* A `*status.Status` is an address into a heap of status objects (`none` is the nil
  pointer).  Two pointers are equal when they are the same address, whatever the
  objects hold.
* A panic is `Except.error` carrying the panic value.
* A Go `string` is a Lean `String`.
-/

namespace gerr

/-! ## google.golang.org/grpc/codes -/

namespace codes

def OK : Nat := 0
def Canceled : Nat := 1
def Unknown : Nat := 2
def InvalidArgument : Nat := 3
def DeadlineExceeded : Nat := 4
def NotFound : Nat := 5
def AlreadyExists : Nat := 6
def PermissionDenied : Nat := 7
def ResourceExhausted : Nat := 8
def FailedPrecondition : Nat := 9
def Aborted : Nat := 10
def OutOfRange : Nat := 11
def Unimplemented : Nat := 12
def Internal : Nat := 13
def Unavailable : Nat := 14
def DataLoss : Nat := 15
def Unauthenticated : Nat := 16

/-- The method `Code.String` of the codes package: the name of a canonical code,
`Code(n)` for any other value. -/
def CodeString (c : Nat) : String :=
  if c = OK then "OK"
  else if c = Canceled then "Canceled"
  else if c = Unknown then "Unknown"
  else if c = InvalidArgument then "InvalidArgument"
  else if c = DeadlineExceeded then "DeadlineExceeded"
  else if c = NotFound then "NotFound"
  else if c = AlreadyExists then "AlreadyExists"
  else if c = PermissionDenied then "PermissionDenied"
  else if c = ResourceExhausted then "ResourceExhausted"
  else if c = FailedPrecondition then "FailedPrecondition"
  else if c = Aborted then "Aborted"
  else if c = OutOfRange then "OutOfRange"
  else if c = Unimplemented then "Unimplemented"
  else if c = Internal then "Internal"
  else if c = Unavailable then "Unavailable"
  else if c = DataLoss then "DataLoss"
  else if c = Unauthenticated then "Unauthenticated"
  else "Code(" ++ toString c ++ ")"

end codes

/-- The seventeen canonical codes, in the order of the codes package. -/
def canonicalCodes : List Nat :=
  [codes.OK, codes.Canceled, codes.Unknown, codes.InvalidArgument, codes.DeadlineExceeded,
   codes.NotFound, codes.AlreadyExists, codes.PermissionDenied, codes.ResourceExhausted,
   codes.FailedPrecondition, codes.Aborted, codes.OutOfRange, codes.Unimplemented,
   codes.Internal, codes.Unavailable, codes.DataLoss, codes.Unauthenticated]

/-! ## net/http status constants used by `toHttp` -/

namespace http

def StatusOK : Nat := 200
def StatusBadRequest : Nat := 400
def StatusUnauthorized : Nat := 401
def StatusForbidden : Nat := 403
def StatusNotFound : Nat := 404
def StatusConflict : Nat := 409
def StatusTooManyRequests : Nat := 429
def StatusInternalServerError : Nat := 500
def StatusNotImplemented : Nat := 501
def StatusServiceUnavailable : Nat := 503
def StatusGatewayTimeout : Nat := 504

end http

/-! ## errors.go: `toHttp` -/

/-- The function `toHttp` of errors.go, lines 41-79: a switch over the seventeen
codes, and a panic with `fmt.Sprintf("unknown code: %d", code)` after it. -/
def toHttp (code : Nat) : Except String Nat :=
  if code = codes.OK then .ok http.StatusOK
  else if code = codes.InvalidArgument then .ok http.StatusBadRequest
  else if code = codes.FailedPrecondition then .ok http.StatusBadRequest
  else if code = codes.OutOfRange then .ok http.StatusBadRequest
  else if code = codes.Unauthenticated then .ok http.StatusUnauthorized
  else if code = codes.PermissionDenied then .ok http.StatusForbidden
  else if code = codes.NotFound then .ok http.StatusNotFound
  else if code = codes.AlreadyExists then .ok http.StatusConflict
  else if code = codes.Aborted then .ok http.StatusConflict
  else if code = codes.ResourceExhausted then .ok http.StatusTooManyRequests
  else if code = codes.Canceled then .ok 499
  else if code = codes.Unknown then .ok http.StatusInternalServerError
  else if code = codes.Internal then .ok http.StatusInternalServerError
  else if code = codes.DataLoss then .ok http.StatusInternalServerError
  else if code = codes.Unimplemented then .ok http.StatusNotImplemented
  else if code = codes.Unavailable then .ok http.StatusServiceUnavailable
  else if code = codes.DeadlineExceeded then .ok http.StatusGatewayTimeout
  else .error ("unknown code: " ++ toString code)

/-! ## google.golang.org/grpc/status

`status.Status` is `struct { s *spb.Status }` and is immutable once built.  The package
only ever holds it through a pointer, and compares those pointers (through the equality
of `Error` values), so the objects live in a heap and a pointer is an address.  The
inner pointer `s` is never compared; the field holds what it points to, `none` when it
is nil. -/

/-- Conversion `int32(c)` of a `uint32` value, as done by `status.New`. -/
def int32 (c : Nat) : Int :=
  if c % 2 ^ 32 < 2 ^ 31 then ((c % 2 ^ 32 : Nat) : Int) else ((c % 2 ^ 32 : Nat) : Int) - 2 ^ 32

/-- Conversion `codes.Code(i)` of an `int32` value, as done by `Status.Code`. -/
def uint32 (i : Int) : Nat :=
  (i % 2 ^ 32).toNat

/-- The protobuf message `spb.Status`; the package never sets details. -/
structure StatusProto where
  Code : Int
  Message : String
deriving DecidableEq, Repr

/-- The struct `status.Status`. -/
structure Status where
  s : Option StatusProto
deriving DecidableEq, Repr

/-- The allocated `status.Status` objects; the address of an object is its index. -/
structure Heap where
  statuses : List Status
deriving DecidableEq, Repr

/-- A `*status.Status`: nil or an address. -/
abbrev StatusPtr := Option Nat

namespace status

/-- The object a pointer points to.  Go has no dangling pointers; an address that was
never allocated reads as a `Status` whose `s` is nil. -/
def deref (h : Heap) (a : Nat) : Status :=
  (h.statuses.get? a).getD ⟨none⟩

/-- The constructor `status.New(c, msg)`:
`&Status{s: &spb.Status{Code: int32(c), Message: msg}}`, a fresh object. -/
def New (h : Heap) (c : Nat) (msg : String) : Heap × StatusPtr :=
  (⟨h.statuses ++ [⟨some ⟨int32 c, msg⟩⟩]⟩, some h.statuses.length)

/-- The method `(*Status).Code`: `codes.OK` when the receiver or its `s` is nil,
`codes.Code(s.s.Code)` otherwise. -/
def Code (h : Heap) (s : StatusPtr) : Nat :=
  match s with
  | none => codes.OK
  | some a =>
    match (deref h a).s with
    | none => codes.OK
    | some p => uint32 p.Code

/-- The method `(*Status).Message`: the empty string when the receiver or its `s` is
nil, `s.s.Message` otherwise. -/
def Message (h : Heap) (s : StatusPtr) : String :=
  match s with
  | none => ""
  | some a =>
    match (deref h a).s with
    | none => ""
    | some p => p.Message

/-- The method `(*Status).String`, which is also the text of the error `s.Err()` when
the code is not `OK` (`s.Err()` is nil when it is):
`fmt.Sprintf("rpc error: code = %s desc = %s", s.Code(), s.Message())`. -/
def StatusString (h : Heap) (s : StatusPtr) : String :=
  "rpc error: code = " ++ codes.CodeString (Code h s) ++ " desc = " ++ Message h s

end status

/-! ## errors.go: the type `Error` and its methods

The method `Error.Error` comes last so that the name `Error` keeps meaning the type in
the signatures of the other three. -/

set_option linter.dupNamespace false

/-- The struct `Error` of errors.go, lines 16-18: one embedded `*status.Status`. -/
structure Error where
  Status : StatusPtr
deriving DecidableEq, Repr

/-- The method `Error.HttpCode`, lines 27-29: `toHttp(e.Code())`. -/
def Error.HttpCode (h : Heap) (e : Error) : Except String Nat :=
  toHttp (status.Code h e.Status)

/-- The method `Error.GrpcCode`, lines 32-34: `e.Code()`. -/
def Error.GrpcCode (h : Heap) (e : Error) : Nat :=
  status.Code h e.Status

/-- The method `Error.GRPCStatus`, lines 37-39: the embedded pointer. -/
def Error.GRPCStatus (e : Error) : StatusPtr :=
  e.Status

/-- The method `Error.Error`, lines 23-25: `e.Status.Message()`. -/
def Error.Error (h : Heap) (e : Error) : String :=
  status.Message h e.Status

/-! ## errors.go: the sentinels

Package-level variables without dependencies are initialised in declaration order, so
the sixteen `status.New` calls run one after the other; the heap is threaded through
them.  Addresses only name objects, so the first of the sixteen gets address 0; status
objects that other packages allocated earlier are not reachable from this package. -/

def alloc1 := status.New ⟨[]⟩ codes.Canceled "cancelled"
def ErrCancelled : Error := ⟨alloc1.2⟩
def alloc2 := status.New alloc1.1 codes.Unknown "unknown"
def ErrUnknown : Error := ⟨alloc2.2⟩
def alloc3 := status.New alloc2.1 codes.InvalidArgument "invalid argument"
def ErrInvalidArgument : Error := ⟨alloc3.2⟩
def alloc4 := status.New alloc3.1 codes.DeadlineExceeded "deadline exceeded"
def ErrDeadlineExceeded : Error := ⟨alloc4.2⟩
def alloc5 := status.New alloc4.1 codes.NotFound "not found"
def ErrNotFound : Error := ⟨alloc5.2⟩
def alloc6 := status.New alloc5.1 codes.AlreadyExists "already exists"
def ErrAlreadyExists : Error := ⟨alloc6.2⟩
def alloc7 := status.New alloc6.1 codes.PermissionDenied "permission denied"
def ErrPermissionDenied : Error := ⟨alloc7.2⟩
def alloc8 := status.New alloc7.1 codes.Unauthenticated "unauthenticated"
def ErrUnauthenticated : Error := ⟨alloc8.2⟩
def alloc9 := status.New alloc8.1 codes.ResourceExhausted "resource exhausted"
def ErrResourceExhausted : Error := ⟨alloc9.2⟩
def alloc10 := status.New alloc9.1 codes.FailedPrecondition "unmet precondition"
def ErrFailedPrecondition : Error := ⟨alloc10.2⟩
def alloc11 := status.New alloc10.1 codes.Aborted "aborted"
def ErrAborted : Error := ⟨alloc11.2⟩
def alloc12 := status.New alloc11.1 codes.OutOfRange "out of range"
def ErrOutOfRange : Error := ⟨alloc12.2⟩
def alloc13 := status.New alloc12.1 codes.Unimplemented "unimplemented"
def ErrUnimplemented : Error := ⟨alloc13.2⟩
def alloc14 := status.New alloc13.1 codes.Internal "internal"
def ErrInternal : Error := ⟨alloc14.2⟩
def alloc15 := status.New alloc14.1 codes.Unavailable "unavailable"
def ErrUnavailable : Error := ⟨alloc15.2⟩
def alloc16 := status.New alloc15.1 codes.DataLoss "data loss"
def ErrDataLoss : Error := ⟨alloc16.2⟩

/-- The heap once the package is initialised. -/
def pkgHeap : Heap := alloc16.1

/-- A heap of the running program: the package's sixteen objects, then whatever was
allocated later.  Status objects are immutable and never freed, so every heap the
program sees after initialisation has this form. -/
def laterHeap (more : List Status) : Heap :=
  ⟨pkgHeap.statuses ++ more⟩

/-- The sentinel catalog, in declaration order. -/
def sentinels : List Error :=
  [ErrCancelled, ErrUnknown, ErrInvalidArgument, ErrDeadlineExceeded, ErrNotFound,
   ErrAlreadyExists, ErrPermissionDenied, ErrUnauthenticated, ErrResourceExhausted,
   ErrFailedPrecondition, ErrAborted, ErrOutOfRange, ErrUnimplemented, ErrInternal,
   ErrUnavailable, ErrDataLoss]

/-! ## Go error values

A non-nil value of the interface type `error`, by dynamic type: a `gerr.Error` (a
struct, held by value), a `*fmt.wrapError` or a `*errors.errorString` (pointers, with
their address and the fields of the object).  The nil interface value is `none` of
`Option GoError`.  The `err` field of a `wrapError` is never nil: `fmt.Errorf` stores
the operand of `%w`, which is an error. -/

inductive GoError where
  | gerrError (e : Error)
  | wrapError (addr : Nat) (msg : String) (err : GoError)
  | errorString (addr : Nat) (s : String)
deriving DecidableEq, Repr

namespace GoError

/-- The method `Error()` of each dynamic type: `Error.Error` for a `gerr.Error`, the
stored text for the two library types. -/
def Error (h : Heap) : GoError → String
  | gerrError e => e.Error h
  | wrapError _ msg _ => msg
  | errorString _ s => s

/-- The string `reflect.TypeOf(err).String()`. -/
def typeString : GoError → String
  | gerrError _ => "gerr.Error"
  | wrapError _ _ _ => "*fmt.wrapError"
  | errorString _ _ => "*errors.errorString"

/-- Interface equality `err == target`: the same dynamic type and equal values.  Two
`gerr.Error` structs are equal when their pointer fields are; two pointers are equal
when they are the same address. -/
def ifaceEq : GoError → GoError → Bool
  | gerrError e, gerrError t => e.Status == t.Status
  | wrapError a _ _, wrapError b _ _ => a == b
  | errorString a _, errorString b _ => a == b
  | _, _ => false

end GoError

/-! ## errors.Is and errors.As

`gerr.Error` declares no `Is`, `As` or `Unwrap` method and `*status.Status` promotes
none; `*fmt.wrapError` has `Unwrap` only; `*errors.errorString` has none of them.  All
three dynamic types are comparable. -/

namespace errors

/-- The loop of `errors.Is`: compare, then follow `Unwrap` when the link has one. -/
def isLoop (target : GoError) : GoError → Bool
  | .gerrError e => GoError.ifaceEq (.gerrError e) target
  | .wrapError a msg err => GoError.ifaceEq (.wrapError a msg err) target || isLoop target err
  | .errorString a s => GoError.ifaceEq (.errorString a s) target

/-- The function `errors.Is(err, target)`. -/
def Is (err target : Option GoError) : Bool :=
  match err, target with
  | none, none => true
  | none, some _ => false
  | some _, none => false
  | some e, some t => isLoop t e

/-- The loop of `errors.As` for a target of type `*gerr.Error`: a link of dynamic
type `gerr.Error` is assigned to the target; otherwise follow `Unwrap`. -/
def asLoop : GoError → Option Error
  | .gerrError e => some e
  | .wrapError _ _ err => asLoop err
  | .errorString _ _ => none

/-- The call `errors.As(err, &e)` with `e` of type `gerr.Error`: `some v` when it
returns true having set `e` to `v`, `none` when it returns false. -/
def As (err : Option GoError) : Option Error :=
  match err with
  | none => none
  | some e => asLoop e

end errors

/-! ## fmt.Errorf

The call `fmt.Errorf(format, a)` with one operand `a`, a non-nil error.  The model
covers the directives `%w`, `%v`, `%s` and `%%` written without flags, width,
precision or argument index; a format with any other directive is outside the model
and gives `none`. -/

namespace fmt

/-- The printer state: the output buffer, the number of operands consumed, and the
operand indexes that `%w` was applied to. -/
structure pp where
  buf : List Char
  argNum : Nat
  wrappedErrs : List Nat
deriving DecidableEq, Repr

/-- One directive whose verb is `verb`.  `%%` prints a percent sign.  With no operand
left the verb prints `%!verb(MISSING)`.  Otherwise the operand is an error, so `%v`,
`%s` and `%w` print its `Error()` text, and `%w` records the operand. -/
def printVerb (h : Heap) (a : GoError) (p : pp) (verb : Char) : Option pp :=
  if verb = '%' then some { p with buf := p.buf ++ ['%'] }
  else if verb = 'w' ∨ verb = 'v' ∨ verb = 's' then
    if 1 ≤ p.argNum then
      some { p with buf := p.buf ++ "%!".data ++ [verb] ++ "(MISSING)".data }
    else
      some { buf := p.buf ++ (a.Error h).data
             argNum := p.argNum + 1
             wrappedErrs := if verb = 'w' then p.wrappedErrs ++ [p.argNum] else p.wrappedErrs }
  else none

/-- The scanning loop of `doPrintf`: text up to the next percent sign is copied, a
percent sign starts a directive, and a percent sign that ends the format prints
`%!(NOVERB)`. -/
def scan (h : Heap) (a : GoError) : List Char → pp → Option pp
  | [], p => some p
  | c :: rest, p =>
    if c = '%' then
      match rest with
      | [] => some { p with buf := p.buf ++ "%!(NOVERB)".data }
      | verb :: rest' => (printVerb h a p verb).bind (scan h a rest')
    else scan h a rest { p with buf := p.buf ++ [c] }

/-- The method `doPrintf`: the scan, then the report of an operand that no directive
consumed, `%!(EXTRA type=value)`. -/
def doPrintf (h : Heap) (a : GoError) (format : String) : Option pp :=
  (scan h a format.data ⟨[], 0, []⟩).map fun p =>
    if p.argNum < 1 then
      { p with buf := p.buf ++ "%!(EXTRA ".data ++ a.typeString.data ++ ['='] ++
                        (a.Error h).data ++ [')'] }
    else p

/-- The function `fmt.Errorf(format, a)`: the text is the formatted string; the result
is a fresh `*errors.errorString` when no `%w` was applied to the operand and a fresh
`*fmt.wrapError` around the operand when one was.  `addr` is the address of the new
object. -/
def Errorf (h : Heap) (addr : Nat) (format : String) (a : GoError) : Option GoError :=
  (doPrintf h a format).map fun p =>
    match p.wrappedErrs with
    | [] => GoError.errorString addr (String.mk p.buf)
    | _ :: _ => GoError.wrapError addr (String.mk p.buf) a

end fmt

/-- Added context: one `fmt.Errorf(ctx + ": %w", err)` per context of the list,
innermost first; the new objects get the addresses `addr`, `addr + 1`, and so on. -/
def wrapLayers (h : Heap) : List String → Nat → GoError → Option GoError
  | [], _, err => some err
  | ctx :: rest, addr, err =>
    (fmt.Errorf h addr (ctx ++ ": %w") err).bind (wrapLayers h rest (addr + 1))

/-- A context is literal text when it holds no percent sign, that is no formatting
directive. -/
def literal (ctx : String) : Prop :=
  '%' ∉ ctx.data

instance (ctx : String) : Decidable (literal ctx) := by
  unfold literal; infer_instance

/-- An `Error` built ad hoc once the package is initialised, from the code and the
message of `ErrCancelled`: `Error{Status: status.New(codes.Canceled, "cancelled")}`,
with the heap after the allocation. -/
def adHocCancelled : Heap × Error :=
  ((status.New pkgHeap codes.Canceled "cancelled").1,
   ⟨(status.New pkgHeap codes.Canceled "cancelled").2⟩)

/-- The authoritative table of the specification, section 4.1, row by row. -/
def specTable : List (Nat × Nat) :=
  [(codes.OK, 200), (codes.InvalidArgument, 400), (codes.FailedPrecondition, 400),
   (codes.OutOfRange, 400), (codes.Unauthenticated, 401), (codes.PermissionDenied, 403),
   (codes.NotFound, 404), (codes.AlreadyExists, 409), (codes.Aborted, 409),
   (codes.ResourceExhausted, 429), (codes.Canceled, 499), (codes.Unknown, 500),
   (codes.Internal, 500), (codes.DataLoss, 500), (codes.Unimplemented, 501),
   (codes.Unavailable, 503), (codes.DeadlineExceeded, 504)]

/-! ## errors.Unwrap and status.FromError -/

/-- The function `errors.Unwrap(err)`: the result of the `Unwrap() error` method when
the dynamic type has one, nil otherwise.  Only `*fmt.wrapError` has one; `gerr.Error`
declares none in errors.go and `*status.Status` promotes none. -/
def errors.Unwrap : Option GoError → Option GoError
  | some (.wrapError _ _ err) => some err
  | _ => none

/-- The function `status.FromError(err)` of grpc-go (release 1.55 and later), with the
heap after the call.  A nil error gives `(nil, true)`.  An error whose dynamic type has
the method `GRPCStatus` gives that status and `true`, unless the status is nil.  Else
the first link of the chain with that method is looked up as `errors.As` does; its
status is copied with the text of the whole error as message.  Every other case gives
a fresh `Unknown` status with the error text and `false`.  Earlier releases return
`(err.GRPCStatus(), true)` without the nil test and do not look into the chain; the two
agree on an error that has the method and a status that is not nil.  Copying a status
whose `s` is nil assigns through a nil pointer, a panic. -/
def status.FromError (h : Heap) (err : Option GoError) :
    Except String (Heap × StatusPtr × Bool) :=
  match err with
  | none => .ok (h, none, true)
  | some (.gerrError e) =>
    match e.GRPCStatus with
    | none => .ok ((status.New h codes.Unknown (e.Error h)).1,
                   (status.New h codes.Unknown (e.Error h)).2, false)
    | some a => .ok (h, some a, true)
  | some err' =>
    match errors.asLoop err' with
    | none => .ok ((status.New h codes.Unknown (err'.Error h)).1,
                   (status.New h codes.Unknown (err'.Error h)).2, false)
    | some e =>
      match e.GRPCStatus with
      | none => .ok ((status.New h codes.Unknown (err'.Error h)).1,
                     (status.New h codes.Unknown (err'.Error h)).2, false)
      | some a =>
        match (status.deref h a).s with
        | none => .error "invalid memory address or nil pointer dereference"
        | some p => .ok (⟨h.statuses ++ [⟨some ⟨p.Code, err'.Error h⟩⟩]⟩,
                         some h.statuses.length, true)

deriving instance DecidableEq for Except

/-! ## Lemmas on the library model -/

theorem mem_canonicalCodes_iff (c : Nat) : c ∈ canonicalCodes ↔ c ≤ 16 := by
  constructor
  · intro hc
    simp [canonicalCodes, codes.OK, codes.Canceled, codes.Unknown, codes.InvalidArgument,
      codes.DeadlineExceeded, codes.NotFound, codes.AlreadyExists, codes.PermissionDenied,
      codes.ResourceExhausted, codes.FailedPrecondition, codes.Aborted, codes.OutOfRange,
      codes.Unimplemented, codes.Internal, codes.Unavailable, codes.DataLoss,
      codes.Unauthenticated] at hc
    omega
  · intro hc
    interval_cases c <;> decide

theorem uint32_int32 (c : Nat) (hc : c < 2 ^ 32) : uint32 (int32 c) = c := by
  unfold uint32 int32
  have hmod : c % 2 ^ 32 = c := Nat.mod_eq_of_lt hc
  rw [hmod]
  split <;> omega

theorem deref_New (h : Heap) (c : Nat) (m : String) :
    status.deref (status.New h c m).1 h.statuses.length = ⟨some ⟨int32 c, m⟩⟩ := by
  simp [status.deref, status.New]

theorem Code_New (h : Heap) (c : Nat) (m : String) :
    status.Code (status.New h c m).1 (status.New h c m).2 = uint32 (int32 c) := by
  have hd := deref_New h c m
  simp only [status.Code, status.New] at hd ⊢
  rw [hd]

theorem Message_New (h : Heap) (c : Nat) (m : String) :
    status.Message (status.New h c m).1 (status.New h c m).2 = m := by
  have hd := deref_New h c m
  simp only [status.Message, status.New] at hd ⊢
  rw [hd]

theorem toHttp_ok_of_le (c : Nat) (hc : c ≤ 16) : ∃ v, toHttp c = .ok v := by
  interval_cases c <;> exact ⟨_, rfl⟩

theorem toHttp_error_of_gt (c : Nat) (hc : 16 < c) :
    toHttp c = .error ("unknown code: " ++ toString c) := by
  unfold toHttp
  simp only [codes.OK, codes.Canceled, codes.Unknown, codes.InvalidArgument,
      codes.DeadlineExceeded, codes.NotFound, codes.AlreadyExists, codes.PermissionDenied,
      codes.ResourceExhausted, codes.FailedPrecondition, codes.Aborted, codes.OutOfRange,
      codes.Unimplemented, codes.Internal, codes.Unavailable, codes.DataLoss,
      codes.Unauthenticated]
  repeat rw [if_neg (by omega)]

/-! ## The mapping to HTTP -/

/-- C1: the specification's table lists the seventeen canonical codes, and for each
of its rows `(c, v)` the function `toHttp` returns `v` at `c`, as does `HttpCode` on
every `Error` whose code is `c`. -/
theorem toHttp_matches_table :
    (specTable.map Prod.fst).Perm canonicalCodes ∧
    ∀ c v : Nat, (c, v) ∈ specTable →
      toHttp c = .ok v ∧
      ∀ (h : Heap) (e : Error), e.GrpcCode h = c → e.HttpCode h = .ok v := by
  refine ⟨by decide, ?_⟩
  intro c v hrow
  have hc : toHttp c = .ok v := by
    simp only [specTable, List.mem_cons, Prod.mk.injEq, List.mem_singleton, List.not_mem_nil,
      or_false] at hrow
    rcases hrow with h | h | h | h | h | h | h | h | h | h | h | h | h | h | h | h | h <;>
      (obtain ⟨rfl, rfl⟩ := h; rfl)
  refine ⟨hc, ?_⟩
  intro h e he
  unfold Error.HttpCode
  unfold Error.GrpcCode at he
  rw [he, hc]

/-- Witness for C1 at the row of `Canceled` and the sentinel `ErrCancelled`. -/
theorem toHttp_matches_table_witness :
    (codes.Canceled, 499) ∈ specTable ∧ ErrCancelled.GrpcCode pkgHeap = codes.Canceled ∧
    toHttp codes.Canceled = .ok 499 ∧ ErrCancelled.HttpCode pkgHeap = .ok 499 :=
  ⟨by decide, rfl, (toHttp_matches_table.2 codes.Canceled 499 (by decide)).1,
    (toHttp_matches_table.2 codes.Canceled 499 (by decide)).2 pkgHeap ErrCancelled rfl⟩

/-- C2: `toHttp` panics exactly on the values that are not canonical codes, which are
the values above 16, and the panic value is the text `unknown code: ` followed by the
number; it returns exactly on the canonical codes.  No value gets a default status. -/
theorem toHttp_panics_iff (c : Nat) :
    ((∃ msg, toHttp c = .error msg) ↔ c ∉ canonicalCodes) ∧
    (c ∉ canonicalCodes ↔ 16 < c) ∧
    (16 < c ↔ toHttp c = .error ("unknown code: " ++ toString c)) ∧
    ((∃ v, toHttp c = .ok v) ↔ c ∈ canonicalCodes) := by
  rw [mem_canonicalCodes_iff]
  rcases Nat.lt_or_ge 16 c with hgt | hle
  · have herr := toHttp_error_of_gt c hgt
    refine ⟨⟨fun _ => by omega, fun _ => ⟨_, herr⟩⟩, by omega, ⟨fun _ => herr, fun _ => hgt⟩, ?_⟩
    constructor
    · rintro ⟨v, hv⟩
      rw [herr] at hv
      cases hv
    · intro hle
      omega
  · obtain ⟨v, hv⟩ := toHttp_ok_of_le c hle
    refine ⟨⟨?_, fun hn => absurd hle hn⟩, by omega, ⟨fun hgt => by omega, ?_⟩,
      ⟨fun _ => hle, fun _ => ⟨v, hv⟩⟩⟩
    · rintro ⟨msg, hmsg⟩
      rw [hv] at hmsg
      cases hmsg
    · intro herr
      rw [hv] at herr
      cases herr

/-! ## The sentinel catalog -/

/-- C3: in every heap of the running program the catalog has sixteen entries, no two
of them equal, `GrpcCode` of each is the code its declaration passes to `status.New`,
these sixteen codes are pairwise distinct, and they are exactly the canonical codes
other than `OK`. -/
theorem sentinel_codes (more : List Status) :
    sentinels.length = 16 ∧ sentinels.Nodup ∧
    (ErrCancelled.GrpcCode (laterHeap more) = codes.Canceled ∧
     ErrUnknown.GrpcCode (laterHeap more) = codes.Unknown ∧
     ErrInvalidArgument.GrpcCode (laterHeap more) = codes.InvalidArgument ∧
     ErrDeadlineExceeded.GrpcCode (laterHeap more) = codes.DeadlineExceeded ∧
     ErrNotFound.GrpcCode (laterHeap more) = codes.NotFound ∧
     ErrAlreadyExists.GrpcCode (laterHeap more) = codes.AlreadyExists ∧
     ErrPermissionDenied.GrpcCode (laterHeap more) = codes.PermissionDenied ∧
     ErrUnauthenticated.GrpcCode (laterHeap more) = codes.Unauthenticated ∧
     ErrResourceExhausted.GrpcCode (laterHeap more) = codes.ResourceExhausted ∧
     ErrFailedPrecondition.GrpcCode (laterHeap more) = codes.FailedPrecondition ∧
     ErrAborted.GrpcCode (laterHeap more) = codes.Aborted ∧
     ErrOutOfRange.GrpcCode (laterHeap more) = codes.OutOfRange ∧
     ErrUnimplemented.GrpcCode (laterHeap more) = codes.Unimplemented ∧
     ErrInternal.GrpcCode (laterHeap more) = codes.Internal ∧
     ErrUnavailable.GrpcCode (laterHeap more) = codes.Unavailable ∧
     ErrDataLoss.GrpcCode (laterHeap more) = codes.DataLoss) ∧
    (sentinels.map (fun E => E.GrpcCode (laterHeap more))).Nodup ∧
    ∀ c : Nat, c ∈ sentinels.map (fun E => E.GrpcCode (laterHeap more)) ↔
      (c ∈ canonicalCodes ∧ c ≠ codes.OK) := by
  have hmap : sentinels.map (fun E => E.GrpcCode (laterHeap more)) =
      [1, 2, 3, 4, 5, 6, 7, 16, 8, 9, 10, 11, 12, 13, 14, 15] := rfl
  refine ⟨rfl, by decide, ⟨rfl, rfl, rfl, rfl, rfl, rfl, rfl, rfl, rfl, rfl, rfl, rfl, rfl, rfl,
    rfl, rfl⟩, ?_, ?_⟩
  · rw [hmap]; decide
  · intro c
    rw [hmap, mem_canonicalCodes_iff]
    simp only [List.mem_cons, List.mem_singleton, List.not_mem_nil, or_false, codes.OK]
    omega

/-- C4: in every heap of the running program `HttpCode` of each sentinel returns the
status that the comment above its declaration gives as its HTTP mapping. -/
theorem sentinel_http_codes (more : List Status) :
    ErrCancelled.HttpCode (laterHeap more) = .ok 499 ∧
    ErrUnknown.HttpCode (laterHeap more) = .ok 500 ∧
    ErrInvalidArgument.HttpCode (laterHeap more) = .ok 400 ∧
    ErrDeadlineExceeded.HttpCode (laterHeap more) = .ok 504 ∧
    ErrNotFound.HttpCode (laterHeap more) = .ok 404 ∧
    ErrAlreadyExists.HttpCode (laterHeap more) = .ok 409 ∧
    ErrPermissionDenied.HttpCode (laterHeap more) = .ok 403 ∧
    ErrUnauthenticated.HttpCode (laterHeap more) = .ok 401 ∧
    ErrResourceExhausted.HttpCode (laterHeap more) = .ok 429 ∧
    ErrFailedPrecondition.HttpCode (laterHeap more) = .ok 400 ∧
    ErrAborted.HttpCode (laterHeap more) = .ok 409 ∧
    ErrOutOfRange.HttpCode (laterHeap more) = .ok 400 ∧
    ErrUnimplemented.HttpCode (laterHeap more) = .ok 501 ∧
    ErrInternal.HttpCode (laterHeap more) = .ok 500 ∧
    ErrUnavailable.HttpCode (laterHeap more) = .ok 503 ∧
    ErrDataLoss.HttpCode (laterHeap more) = .ok 500 :=
  ⟨rfl, rfl, rfl, rfl, rfl, rfl, rfl, rfl, rfl, rfl, rfl, rfl, rfl, rfl, rfl, rfl⟩

/-! ## Lemmas on wrapping -/

theorem scan_literal (h : Heap) (a : GoError) (l rest : List Char) (hl : '%' ∉ l)
    (p : fmt.pp) :
    fmt.scan h a (l ++ rest) p = fmt.scan h a rest { p with buf := p.buf ++ l } := by
  induction l generalizing p with
  | nil => simp
  | cons c l ih =>
    have hc : c ≠ '%' := fun hEq => hl (by simp [hEq])
    have hl' : '%' ∉ l := fun hmem => hl (List.mem_cons_of_mem c hmem)
    rw [List.cons_append, fmt.scan.eq_def]
    simp only [if_neg hc]
    rw [ih hl']
    simp

theorem scan_wrap_suffix (h : Heap) (a : GoError) (buf : List Char) :
    fmt.scan h a ": %w".data ⟨buf, 0, []⟩ =
      some ⟨buf ++ ": ".data ++ (a.Error h).data, 1, [0]⟩ := by
  simp [fmt.scan, fmt.printVerb]

theorem Errorf_literal (h : Heap) (addr : Nat) (ctx : String) (a : GoError)
    (hlit : literal ctx) :
    fmt.Errorf h addr (ctx ++ ": %w") a =
      some (.wrapError addr (ctx ++ ": " ++ a.Error h) a) := by
  have hscan : fmt.scan h a (ctx ++ ": %w").data ⟨[], 0, []⟩ =
      some ⟨ctx.data ++ ": ".data ++ (a.Error h).data, 1, [0]⟩ := by
    rw [String.data_append, scan_literal h a ctx.data _ hlit]
    exact scan_wrap_suffix h a ([] ++ ctx.data)
  have htext : String.mk (ctx.data ++ ": ".data ++ (a.Error h).data) =
      ctx ++ ": " ++ a.Error h := by
    apply String.ext
    simp [String.data_append]
  unfold fmt.Errorf fmt.doPrintf
  rw [hscan, ← htext]
  rfl

theorem wrapLayers_literal (h : Heap) (ctxs : List String) (addr : Nat) (err : GoError)
    (hlit : ∀ ctx ∈ ctxs, literal ctx) :
    ∃ chain, wrapLayers h ctxs addr err = some chain ∧
      errors.asLoop chain = errors.asLoop err ∧
      ∀ E : Error, errors.isLoop (.gerrError E) chain = errors.isLoop (.gerrError E) err := by
  induction ctxs generalizing addr err with
  | nil => exact ⟨err, rfl, rfl, fun _ => rfl⟩
  | cons ctx rest ih =>
    have hctx : literal ctx := hlit ctx (List.mem_cons_self _ _)
    have hrest : ∀ c ∈ rest, literal c := fun c hc => hlit c (List.mem_cons_of_mem _ hc)
    obtain ⟨chain, hchain, hAs, hIs⟩ :=
      ih (addr + 1) (.wrapError addr (ctx ++ ": " ++ err.Error h) err) hrest
    refine ⟨chain, ?_, ?_, ?_⟩
    · rw [wrapLayers, Errorf_literal h addr ctx err hctx]
      exact hchain
    · rw [hAs, errors.asLoop]
    · intro E
      rw [hIs E, errors.isLoop]
      simp [GoError.ifaceEq]

/-! ## Chain inspection -/

/-- C5: for every sentinel `E`, every heap of the running program and every list of
literal contexts (of any length, the empty list included), wrapping `E` in these
contexts gives a chain, and `errors.Is(chain, E)` is true. -/
theorem is_wrapped_sentinel (more : List Status) (E : Error) (hE : E ∈ sentinels)
    (ctxs : List String) (hlit : ∀ ctx ∈ ctxs, literal ctx) (addr : Nat) :
    ∃ chain, wrapLayers (laterHeap more) ctxs addr (.gerrError E) = some chain ∧
      errors.Is (some chain) (some (.gerrError E)) = true := by
  have _ := hE
  obtain ⟨chain, hchain, _, hIs⟩ :=
    wrapLayers_literal (laterHeap more) ctxs addr (.gerrError E) hlit
  refine ⟨chain, hchain, ?_⟩
  simp [errors.Is, hIs E, errors.isLoop, GoError.ifaceEq]

/-- Witness for C5: `ErrCancelled` under the two contexts of the test. -/
theorem is_wrapped_sentinel_witness :
    ErrCancelled ∈ sentinels ∧ (∀ ctx ∈ ["foo", "bar"], literal ctx) ∧
    ∃ chain, wrapLayers (laterHeap []) ["foo", "bar"] 16 (.gerrError ErrCancelled) = some chain ∧
      errors.Is (some chain) (some (.gerrError ErrCancelled)) = true :=
  ⟨by decide, by decide,
    is_wrapped_sentinel [] ErrCancelled (by decide) ["foo", "bar"] (by decide) 16⟩

/-- C6: for every sentinel `E`, every heap of the running program and every list of
literal contexts, `errors.As` on the wrapped chain succeeds, and `GrpcCode` of the
value it stores is `GrpcCode` of `E`. -/
theorem as_wrapped_sentinel (more : List Status) (E : Error) (hE : E ∈ sentinels)
    (ctxs : List String) (hlit : ∀ ctx ∈ ctxs, literal ctx) (addr : Nat) :
    ∃ chain, wrapLayers (laterHeap more) ctxs addr (.gerrError E) = some chain ∧
      ∃ e : Error, errors.As (some chain) = some e ∧
        e.GrpcCode (laterHeap more) = E.GrpcCode (laterHeap more) := by
  have _ := hE
  obtain ⟨chain, hchain, hAs, _⟩ :=
    wrapLayers_literal (laterHeap more) ctxs addr (.gerrError E) hlit
  refine ⟨chain, hchain, E, ?_, rfl⟩
  simp [errors.As, hAs, errors.asLoop]

/-- Witness for C6: `ErrCancelled` under the two contexts of the test. -/
theorem as_wrapped_sentinel_witness :
    ErrCancelled ∈ sentinels ∧ (∀ ctx ∈ ["foo", "bar"], literal ctx) ∧
    ∃ chain, wrapLayers (laterHeap []) ["foo", "bar"] 16 (.gerrError ErrCancelled) = some chain ∧
      ∃ e : Error, errors.As (some chain) = some e ∧
        e.GrpcCode (laterHeap []) = ErrCancelled.GrpcCode (laterHeap []) :=
  ⟨by decide, by decide,
    as_wrapped_sentinel [] ErrCancelled (by decide) ["foo", "bar"] (by decide) 16⟩

/-- C7, as stated, fails: an `Error` built after initialisation from the code and the
message of `ErrCancelled` has the same `GrpcCode` and the same text as `ErrCancelled`,
yet `errors.Is` against `ErrCancelled` is false on it, bare or wrapped once. -/
theorem is_by_code_counterexample :
    adHocCancelled.2.GrpcCode adHocCancelled.1 = ErrCancelled.GrpcCode adHocCancelled.1 ∧
    adHocCancelled.2.Error adHocCancelled.1 = ErrCancelled.Error adHocCancelled.1 ∧
    errors.Is (wrapLayers adHocCancelled.1 [] 0 (.gerrError adHocCancelled.2))
      (some (.gerrError ErrCancelled)) = false ∧
    errors.Is (wrapLayers adHocCancelled.1 ["foo"] 0 (.gerrError adHocCancelled.2))
      (some (.gerrError ErrCancelled)) = false := by
  refine ⟨rfl, rfl, rfl, rfl⟩

/-- C7, amended: the check recognises a sentinel by the identity of its status
object.  For every sentinel `E`, every `Error` `e`, every heap and every list of
literal contexts, `errors.Is` on `e` wrapped in these contexts against `E` is true
exactly when `e` holds the same status pointer as `E`. -/
theorem is_by_identity (h : Heap) (E : Error) (hE : E ∈ sentinels) (e : Error)
    (ctxs : List String) (hlit : ∀ ctx ∈ ctxs, literal ctx) (addr : Nat) :
    ∃ chain, wrapLayers h ctxs addr (.gerrError e) = some chain ∧
      (errors.Is (some chain) (some (.gerrError E)) = true ↔ e.Status = E.Status) := by
  have _ := hE
  obtain ⟨chain, hchain, _, hIs⟩ := wrapLayers_literal h ctxs addr (.gerrError e) hlit
  refine ⟨chain, hchain, ?_⟩
  simp [errors.Is, hIs E, errors.isLoop, GoError.ifaceEq]

/-- Witness for the amended C7: a copy of `ErrCancelled` under one context. -/
theorem is_by_identity_witness :
    ErrCancelled ∈ sentinels ∧ (∀ ctx ∈ ["foo"], literal ctx) ∧
    ∃ chain, wrapLayers pkgHeap ["foo"] 16 (.gerrError ⟨some 0⟩) = some chain ∧
      (errors.Is (some chain) (some (.gerrError ErrCancelled)) = true ↔
        (Error.mk (some 0)).Status = ErrCancelled.Status) :=
  ⟨by decide, by decide,
    is_by_identity pkgHeap ErrCancelled (by decide) ⟨some 0⟩ ["foo"] (by decide) 16⟩

/-! ## Text and the status accessor -/

/-- C8: for every canonical code `c` and every message `m`, the `Error` built from
`status.New(c, m)` has `Error()` equal to `m`.  The status library's own text for that
status is `rpc error: code = <name of c> desc = m`, which differs from `Error()`; and
`Error()` contains `rpc` exactly when `m` does. -/
theorem Error_text_is_message (h : Heap) (c : Nat) (hc : c ∈ canonicalCodes) (m : String) :
    (Error.mk (status.New h c m).2).Error (status.New h c m).1 = m ∧
    status.StatusString (status.New h c m).1 (status.New h c m).2 =
      "rpc error: code = " ++ codes.CodeString c ++ " desc = " ++ m ∧
    (Error.mk (status.New h c m).2).Error (status.New h c m).1 ≠
      status.StatusString (status.New h c m).1 (status.New h c m).2 ∧
    ("rpc".data <:+: ((Error.mk (status.New h c m).2).Error (status.New h c m).1).data ↔
      "rpc".data <:+: m.data) := by
  have hlt : c < 2 ^ 32 := by
    have := (mem_canonicalCodes_iff c).1 hc
    omega
  have hmsg : (Error.mk (status.New h c m).2).Error (status.New h c m).1 = m :=
    Message_New h c m
  have hstr : status.StatusString (status.New h c m).1 (status.New h c m).2 =
      "rpc error: code = " ++ codes.CodeString c ++ " desc = " ++ m := by
    unfold status.StatusString
    rw [Code_New, Message_New, uint32_int32 c hlt]
  refine ⟨hmsg, hstr, ?_, by rw [hmsg]⟩
  rw [hmsg, hstr]
  intro hEq
  have hlen := congrArg String.length hEq
  simp only [String.length_append] at hlen
  have h18 : "rpc error: code = ".length = 18 := by decide
  omega

/-- Witness for C8: code `NotFound` with the message `no such user`. -/
theorem Error_text_is_message_witness :
    codes.NotFound ∈ canonicalCodes ∧
    (Error.mk (status.New pkgHeap codes.NotFound "no such user").2).Error
      (status.New pkgHeap codes.NotFound "no such user").1 = "no such user" ∧
    status.StatusString (status.New pkgHeap codes.NotFound "no such user").1
      (status.New pkgHeap codes.NotFound "no such user").2 =
      "rpc error: code = NotFound desc = no such user" :=
  ⟨by decide,
    (Error_text_is_message pkgHeap codes.NotFound (by decide) "no such user").1,
    (Error_text_is_message pkgHeap codes.NotFound (by decide) "no such user").2.1⟩

/-- C9: for every sentinel `E`, every heap of the running program and every literal
context `ctx`, the call `fmt.Errorf(ctx + ": %w", E)` returns an error whose text is
`ctx`, a colon and a space, then the text of `E`; and for `ErrCancelled` with the
format `foobar: %w` that text is `foobar: cancelled`. -/
theorem wrapped_text (more : List Status) (E : Error) (hE : E ∈ sentinels) (ctx : String)
    (hlit : literal ctx) (addr : Nat) :
    (∃ w, fmt.Errorf (laterHeap more) addr (ctx ++ ": %w") (.gerrError E) = some w ∧
      w.Error (laterHeap more) = ctx ++ ": " ++ E.Error (laterHeap more)) ∧
    (fmt.Errorf (laterHeap more) addr "foobar: %w" (.gerrError ErrCancelled)).map
      (GoError.Error (laterHeap more)) = some "foobar: cancelled" := by
  have _ := hE
  refine ⟨⟨_, Errorf_literal (laterHeap more) addr ctx (.gerrError E) hlit, rfl⟩, ?_⟩
  have hfoo : literal "foobar" := by decide
  have hcall := Errorf_literal (laterHeap more) addr "foobar" (.gerrError ErrCancelled) hfoo
  have hfmt : "foobar" ++ ": %w" = "foobar: %w" := by decide
  rw [hfmt] at hcall
  rw [hcall]
  rfl

/-- Witness for C9: `ErrUnknown` under the context `load config`. -/
theorem wrapped_text_witness :
    ErrUnknown ∈ sentinels ∧ literal "load config" ∧
    ∃ w, fmt.Errorf (laterHeap []) 16 ("load config" ++ ": %w") (.gerrError ErrUnknown) = some w ∧
      w.Error (laterHeap []) = "load config" ++ ": " ++ ErrUnknown.Error (laterHeap []) :=
  ⟨by decide, by decide,
    (wrapped_text [] ErrUnknown (by decide) "load config" (by decide) 16).1⟩

/-- C10: for every canonical code `c`, every message `m` and every heap, the status
that `GRPCStatus` returns for the `Error` built from `status.New(c, m)` has `Code()`
equal to `c` and `Message()` equal to `m`, and `GrpcCode` returns `c` as well. -/
theorem GRPCStatus_roundtrip (h : Heap) (c : Nat) (hc : c ∈ canonicalCodes) (m : String) :
    status.Code (status.New h c m).1 (Error.mk (status.New h c m).2).GRPCStatus = c ∧
    status.Message (status.New h c m).1 (Error.mk (status.New h c m).2).GRPCStatus = m ∧
    (Error.mk (status.New h c m).2).GrpcCode (status.New h c m).1 = c := by
  have hlt : c < 2 ^ 32 := by
    have := (mem_canonicalCodes_iff c).1 hc
    omega
  have hcode := Code_New h c m
  rw [uint32_int32 c hlt] at hcode
  exact ⟨hcode, Message_New h c m, hcode⟩

/-- Witness for C10: code `Unauthenticated` with the message `token expired`. -/
theorem GRPCStatus_roundtrip_witness :
    codes.Unauthenticated ∈ canonicalCodes ∧
    status.Code (status.New pkgHeap codes.Unauthenticated "token expired").1
      (Error.mk (status.New pkgHeap codes.Unauthenticated "token expired").2).GRPCStatus = 16 ∧
    status.Message (status.New pkgHeap codes.Unauthenticated "token expired").1
      (Error.mk (status.New pkgHeap codes.Unauthenticated "token expired").2).GRPCStatus
      = "token expired" :=
  ⟨by decide,
    (GRPCStatus_roundtrip pkgHeap codes.Unauthenticated (by decide) "token expired").1,
    (GRPCStatus_roundtrip pkgHeap codes.Unauthenticated (by decide) "token expired").2.1⟩

/-! ## The status library's view of a sentinel -/

theorem sentinel_status (E : Error) (hE : E ∈ sentinels) : ∃ a, E.Status = some a ∧ a < 16 := by
  simp only [sentinels, List.mem_cons, List.mem_singleton, List.not_mem_nil, or_false] at hE
  rcases hE with h | h | h | h | h | h | h | h | h | h | h | h | h | h | h | h <;>
    (subst h; exact ⟨_, rfl, by decide⟩)

/-- C11: for every sentinel `E`, passed as a plain error value in any heap of the
running program, `status.FromError` returns normally with `ok` true and without
allocating, and the status it returns has the code and the message of `E`. -/
theorem FromError_sentinel (more : List Status) (E : Error) (hE : E ∈ sentinels) :
    ∃ s, status.FromError (laterHeap more) (some (.gerrError E)) =
        .ok (laterHeap more, s, true) ∧
      status.Code (laterHeap more) s = E.GrpcCode (laterHeap more) ∧
      status.Message (laterHeap more) s = E.Error (laterHeap more) := by
  obtain ⟨a, ha, _⟩ := sentinel_status E hE
  refine ⟨some a, ?_, ?_, ?_⟩
  · simp [status.FromError, Error.GRPCStatus, ha]
  · rw [Error.GrpcCode, ha]
  · rw [Error.Error, ha]

/-- Witness for C11: the sentinel of the test, `ErrCancelled`. -/
theorem FromError_sentinel_witness :
    ErrCancelled ∈ sentinels ∧
    ∃ s, status.FromError (laterHeap []) (some (.gerrError ErrCancelled)) =
        .ok (laterHeap [], s, true) ∧
      status.Code (laterHeap []) s = ErrCancelled.GrpcCode (laterHeap []) ∧
      status.Message (laterHeap []) s = ErrCancelled.Error (laterHeap []) :=
  ⟨by decide, FromError_sentinel [] ErrCancelled (by decide)⟩

/-! ## More on the mapping to HTTP -/

/-- C12: for every `Error`, `HttpCode` is `toHttp` of `GrpcCode`; so two `Error`
values with the same `GrpcCode`, in whatever heaps and with whatever messages, have
the same `HttpCode`. -/
theorem HttpCode_of_GrpcCode (h₁ h₂ : Heap) (e₁ e₂ : Error) :
    e₁.HttpCode h₁ = toHttp (e₁.GrpcCode h₁) ∧
    (e₁.GrpcCode h₁ = e₂.GrpcCode h₂ → e₁.HttpCode h₁ = e₂.HttpCode h₂) := by
  refine ⟨rfl, ?_⟩
  intro hcode
  unfold Error.HttpCode
  unfold Error.GrpcCode at hcode
  rw [hcode]

/-- Witness for C12: `ErrNotFound` and an `Error` built later with the same code and
another message. -/
theorem HttpCode_of_GrpcCode_witness :
    ErrNotFound.GrpcCode pkgHeap =
      (Error.mk (status.New pkgHeap codes.NotFound "no such user").2).GrpcCode
        (status.New pkgHeap codes.NotFound "no such user").1 ∧
    ErrNotFound.Error pkgHeap ≠
      (Error.mk (status.New pkgHeap codes.NotFound "no such user").2).Error
        (status.New pkgHeap codes.NotFound "no such user").1 ∧
    ErrNotFound.HttpCode pkgHeap =
      (Error.mk (status.New pkgHeap codes.NotFound "no such user").2).HttpCode
        (status.New pkgHeap codes.NotFound "no such user").1 :=
  ⟨rfl, by decide,
    (HttpCode_of_GrpcCode pkgHeap (status.New pkgHeap codes.NotFound "no such user").1
      ErrNotFound (Error.mk (status.New pkgHeap codes.NotFound "no such user").2)).2 rfl⟩

/-- C13: among the seventeen canonical codes, which are pairwise distinct, exactly
`InvalidArgument`, `FailedPrecondition` and `OutOfRange` map to 400, exactly
`AlreadyExists` and `Aborted` to 409, exactly `Unknown`, `Internal` and `DataLoss` to
500, and each of 200, 401, 403, 404, 429, 499, 501, 503, 504 has one preimage; these
twelve statuses are the whole image. -/
theorem toHttp_preimages :
    canonicalCodes.Nodup ∧
    canonicalCodes.filter (fun c => toHttp c = .ok 400) =
      [codes.InvalidArgument, codes.FailedPrecondition, codes.OutOfRange] ∧
    canonicalCodes.filter (fun c => toHttp c = .ok 409) =
      [codes.AlreadyExists, codes.Aborted] ∧
    canonicalCodes.filter (fun c => toHttp c = .ok 500) =
      [codes.Unknown, codes.Internal, codes.DataLoss] ∧
    canonicalCodes.filter (fun c => toHttp c = .ok 200) = [codes.OK] ∧
    canonicalCodes.filter (fun c => toHttp c = .ok 401) = [codes.Unauthenticated] ∧
    canonicalCodes.filter (fun c => toHttp c = .ok 403) = [codes.PermissionDenied] ∧
    canonicalCodes.filter (fun c => toHttp c = .ok 404) = [codes.NotFound] ∧
    canonicalCodes.filter (fun c => toHttp c = .ok 429) = [codes.ResourceExhausted] ∧
    canonicalCodes.filter (fun c => toHttp c = .ok 499) = [codes.Canceled] ∧
    canonicalCodes.filter (fun c => toHttp c = .ok 501) = [codes.Unimplemented] ∧
    canonicalCodes.filter (fun c => toHttp c = .ok 503) = [codes.Unavailable] ∧
    canonicalCodes.filter (fun c => toHttp c = .ok 504) = [codes.DeadlineExceeded] ∧
    (canonicalCodes.map toHttp).dedup.length = 12 ∧
    (canonicalCodes.map toHttp).dedup.Perm
      [.ok 200, .ok 400, .ok 401, .ok 403, .ok 404, .ok 409, .ok 429, .ok 499, .ok 500,
       .ok 501, .ok 503, .ok 504] := by
  refine ⟨by decide, by decide, by decide, by decide, by decide, by decide, by decide,
    by decide, by decide, by decide, by decide, by decide, by decide, by decide, by decide⟩

/-- C15: for a canonical code `c`, `toHttp` returns 200 exactly when `c` is `OK`, and
for every other canonical code it returns a status between 400 and 599; `HttpCode` of
every sentinel, in every heap of the running program, is a status between 400 and
599. -/
theorem ok_status_only_for_OK (c : Nat) (hc : c ∈ canonicalCodes) (more : List Status)
    (E : Error) (hE : E ∈ sentinels) :
    (toHttp c = .ok 200 ↔ c = codes.OK) ∧
    (c ≠ codes.OK → ∃ v, toHttp c = .ok v ∧ 400 ≤ v ∧ v ≤ 599) ∧
    ∃ v, E.HttpCode (laterHeap more) = .ok v ∧ 400 ≤ v ∧ v ≤ 599 := by
  have hle := (mem_canonicalCodes_iff c).1 hc
  refine ⟨?_, ?_, ?_⟩
  · interval_cases c <;> decide
  · intro hne
    interval_cases c
    · exact absurd rfl hne
    all_goals exact ⟨_, rfl, by decide, by decide⟩
  · simp only [sentinels, List.mem_cons, List.mem_singleton, List.not_mem_nil, or_false] at hE
    rcases hE with h | h | h | h | h | h | h | h | h | h | h | h | h | h | h | h <;>
      (subst h; exact ⟨_, rfl, by decide, by decide⟩)

/-- Witness for C15: the code `Canceled` and the sentinel `ErrDataLoss`. -/
theorem ok_status_only_for_OK_witness :
    codes.Canceled ∈ canonicalCodes ∧ ErrDataLoss ∈ sentinels ∧
    (toHttp codes.Canceled = .ok 200 ↔ codes.Canceled = codes.OK) ∧
    (codes.Canceled ≠ codes.OK → ∃ v, toHttp codes.Canceled = .ok v ∧ 400 ≤ v ∧ v ≤ 599) ∧
    ∃ v, ErrDataLoss.HttpCode (laterHeap []) = .ok v ∧ 400 ≤ v ∧ v ≤ 599 :=
  ⟨by decide, by decide,
    ok_status_only_for_OK codes.Canceled (by decide) [] ErrDataLoss (by decide)⟩

/-! ## The default messages -/

/-- C14: in every heap of the running program `Error()` of each sentinel is the
string literal of its declaration; none of the sixteen texts is empty and no two of
them are equal. -/
theorem sentinel_messages (more : List Status) :
    (ErrCancelled.Error (laterHeap more) = "cancelled" ∧
     ErrUnknown.Error (laterHeap more) = "unknown" ∧
     ErrInvalidArgument.Error (laterHeap more) = "invalid argument" ∧
     ErrDeadlineExceeded.Error (laterHeap more) = "deadline exceeded" ∧
     ErrNotFound.Error (laterHeap more) = "not found" ∧
     ErrAlreadyExists.Error (laterHeap more) = "already exists" ∧
     ErrPermissionDenied.Error (laterHeap more) = "permission denied" ∧
     ErrUnauthenticated.Error (laterHeap more) = "unauthenticated" ∧
     ErrResourceExhausted.Error (laterHeap more) = "resource exhausted" ∧
     ErrFailedPrecondition.Error (laterHeap more) = "unmet precondition" ∧
     ErrAborted.Error (laterHeap more) = "aborted" ∧
     ErrOutOfRange.Error (laterHeap more) = "out of range" ∧
     ErrUnimplemented.Error (laterHeap more) = "unimplemented" ∧
     ErrInternal.Error (laterHeap more) = "internal" ∧
     ErrUnavailable.Error (laterHeap more) = "unavailable" ∧
     ErrDataLoss.Error (laterHeap more) = "data loss") ∧
    "" ∉ sentinels.map (fun E => E.Error (laterHeap more)) ∧
    (sentinels.map (fun E => E.Error (laterHeap more))).Nodup := by
  have hmap : sentinels.map (fun E => E.Error (laterHeap more)) =
      ["cancelled", "unknown", "invalid argument", "deadline exceeded", "not found",
       "already exists", "permission denied", "unauthenticated", "resource exhausted",
       "unmet precondition", "aborted", "out of range", "unimplemented", "internal",
       "unavailable", "data loss"] := rfl
  refine ⟨⟨rfl, rfl, rfl, rfl, rfl, rfl, rfl, rfl, rfl, rfl, rfl, rfl, rfl, rfl, rfl, rfl⟩,
    ?_, ?_⟩
  · rw [hmap]; decide
  · rw [hmap]; decide

/-! ## More on chain inspection -/

/-- C16: for any two different sentinels `E` and `F`, every heap of the running
program and every list of literal contexts, `errors.Is` on `E` wrapped in these
contexts against `F` is false. -/
theorem is_distinct_sentinels (more : List Status) (E F : Error) (hE : E ∈ sentinels)
    (hF : F ∈ sentinels) (hne : E ≠ F) (ctxs : List String)
    (hlit : ∀ ctx ∈ ctxs, literal ctx) (addr : Nat) :
    ∃ chain, wrapLayers (laterHeap more) ctxs addr (.gerrError E) = some chain ∧
      errors.Is (some chain) (some (.gerrError F)) = false := by
  have _ := hE
  have _ := hF
  obtain ⟨chain, hchain, _, hIs⟩ :=
    wrapLayers_literal (laterHeap more) ctxs addr (.gerrError E) hlit
  refine ⟨chain, hchain, ?_⟩
  have hptr : E.Status ≠ F.Status := by
    intro hEq
    apply hne
    cases E
    cases F
    simp only at hEq
    rw [hEq]
  simp [errors.Is, hIs F, errors.isLoop, GoError.ifaceEq, hptr]

/-- Witness for C16: `ErrAlreadyExists` and `ErrAborted`, which share the status 409,
under the two contexts of the test. -/
theorem is_distinct_sentinels_witness :
    ErrAlreadyExists ∈ sentinels ∧ ErrAborted ∈ sentinels ∧ ErrAlreadyExists ≠ ErrAborted ∧
    ErrAlreadyExists.HttpCode pkgHeap = ErrAborted.HttpCode pkgHeap ∧
    ∃ chain, wrapLayers (laterHeap []) ["foo", "bar"] 16 (.gerrError ErrAlreadyExists) =
        some chain ∧
      errors.Is (some chain) (some (.gerrError ErrAborted)) = false :=
  ⟨by decide, by decide, by decide, rfl,
    is_distinct_sentinels [] ErrAlreadyExists ErrAborted (by decide) (by decide) (by decide)
      ["foo", "bar"] (by decide) 16⟩

/-- C17: an `Error` has nothing to unwrap, and for every sentinel `E`, every heap of
the running program and every list of literal contexts, `errors.As` on the wrapped
chain stores `E` itself: its code, its text (the default message, with none of the
contexts) and its `HttpCode` are those of `E`. -/
theorem as_recovers_sentinel (more : List Status) (E : Error) (hE : E ∈ sentinels)
    (ctxs : List String) (hlit : ∀ ctx ∈ ctxs, literal ctx) (addr : Nat) :
    errors.Unwrap (some (.gerrError E)) = none ∧
    ∃ chain, wrapLayers (laterHeap more) ctxs addr (.gerrError E) = some chain ∧
      errors.As (some chain) = some E ∧
      ∀ e : Error, errors.As (some chain) = some e →
        e = E ∧ e.GrpcCode (laterHeap more) = E.GrpcCode (laterHeap more) ∧
        e.Error (laterHeap more) = E.Error (laterHeap more) ∧
        e.HttpCode (laterHeap more) = E.HttpCode (laterHeap more) := by
  have _ := hE
  obtain ⟨chain, hchain, hAs, _⟩ :=
    wrapLayers_literal (laterHeap more) ctxs addr (.gerrError E) hlit
  have hE' : errors.As (some chain) = some E := by
    simp [errors.As, hAs, errors.asLoop]
  refine ⟨rfl, chain, hchain, hE', ?_⟩
  intro e he
  rw [hE'] at he
  cases he
  exact ⟨rfl, rfl, rfl, rfl⟩

/-- Witness for C17: `ErrInternal` under the two contexts of the test; the text of the
chain carries the contexts, the text of the recovered value does not. -/
theorem as_recovers_sentinel_witness :
    ErrInternal ∈ sentinels ∧ (∀ ctx ∈ ["foo", "bar"], literal ctx) ∧
    (wrapLayers (laterHeap []) ["foo", "bar"] 16 (.gerrError ErrInternal)).map
      (GoError.Error (laterHeap [])) = some "bar: foo: internal" ∧
    ErrInternal.Error (laterHeap []) = "internal" ∧
    ∃ chain, wrapLayers (laterHeap []) ["foo", "bar"] 16 (.gerrError ErrInternal) = some chain ∧
      errors.As (some chain) = some ErrInternal :=
  ⟨by decide, by decide, rfl, rfl,
    let ⟨chain, hchain, hAs, _⟩ :=
      (as_recovers_sentinel [] ErrInternal (by decide) ["foo", "bar"] (by decide) 16).2
    ⟨chain, hchain, hAs⟩⟩

/-! ## The zero value -/

/-- C18: for the zero value `Error{}`, whose embedded pointer is nil, in every heap
`GrpcCode` is `OK`, `HttpCode` returns 200 without a panic, `Error()` is the empty
string and `GRPCStatus` is nil. -/
theorem zero_value_Error (h : Heap) :
    (Error.mk none).GrpcCode h = codes.OK ∧
    (Error.mk none).HttpCode h = .ok 200 ∧
    (Error.mk none).Error h = "" ∧
    (Error.mk none).GRPCStatus = none :=
  ⟨rfl, rfl, rfl, rfl⟩

end gerr
